import Mathlib

/-!
Verification development for the AutoTicket flight-offer pipeline
(backend/app: skills/normalize_offers.py, skills/search_offers.py,
skills/scrape_ena.py, core/ranking.py, core/cache.py, main.py).

Python run-time values are modelled by the `PyVal` type; Python exceptions
are modelled by the `Except PyErr` monad; Python floats are modelled as
rationals; `datetime` values are modelled by the `DateTime` record.
External capabilities (the browser, the AI model, the Amadeus location
API, the file system, the wall clock) are passed in explicitly as
oracles/parameters, so every function of the source becomes a pure,
executable Lean function.
-/

/-- Model of the Python exception kinds raised by the code under study.
Which kind is raised never matters to the callers here (they use a
catch-all), only that an exception is raised. -/
inductive PyErr where
  | keyError
  | indexError
  | typeError
  | valueError
  | attributeError
  | validationError
deriving DecidableEq

/-- Model of an untyped Python value (a JSON-like raw payload).
Floats are modelled as rationals; dict keys in this code base are
always strings. -/
inductive PyVal where
  | none : PyVal
  | bool : Bool → PyVal
  | int : Int → PyVal
  | float : ℚ → PyVal
  | str : String → PyVal
  | list : List PyVal → PyVal
  | dict : List (String × PyVal) → PyVal

/-- A Python dict with string keys (association list; keys are unique in
every dict this code builds, and lookup takes the first match). -/
abbrev Dict := List (String × PyVal)

/-- `d.get(k)` style lookup returning an optional value. -/
def dictGet (d : Dict) (k : String) : Option PyVal :=
  match d with
  | [] => Option.none
  | (k2, v) :: rest => if k2 = k then some v else dictGet rest k

/-- `d.get(k, default)`: lookup with a default. -/
def dictGetD (d : Dict) (k : String) (dflt : PyVal) : PyVal :=
  match dictGet d k with
  | some v => v
  | Option.none => dflt

/-- `d[k] = v`: replace the binding for `k` in place, or append it. -/
def dictSet (d : Dict) (k : String) (v : PyVal) : Dict :=
  match d with
  | [] => [(k, v)]
  | (k2, w) :: rest => if k2 = k then (k2, v) :: rest else (k2, w) :: dictSet rest k v

/-- `d.update(s)`: apply every binding of `s` to `d`, in order. -/
def dictUpdate (d : Dict) (s : Dict) : Dict :=
  s.foldl (fun acc kv => dictSet acc kv.1 kv.2) d

/-- Generic association-list lookup (used for the static city table and
for score-breakdown maps). -/
def lookupStr {α : Type} (l : List (String × α)) (k : String) : Option α :=
  match l with
  | [] => Option.none
  | (k2, v) :: rest => if k2 = k then some v else lookupStr rest k

/-- Python truthiness of a value. -/
def truthy : PyVal → Bool
  | .none => false
  | .bool b => b
  | .int i => i != 0
  | .float q => q != 0
  | .str s => s != ""
  | .list l => !l.isEmpty
  | .dict d => !d.isEmpty

/-- Numeric value of a list of decimal digit characters. -/
def digitsToNat (cs : List Char) : Nat :=
  cs.foldl (fun acc c => acc * 10 + (c.toNat - 48)) 0

/-- `s.strip()`: drop leading and trailing whitespace. -/
def pyStrip (s : String) : String :=
  String.mk (((s.toList.dropWhile Char.isWhitespace).reverse.dropWhile
    Char.isWhitespace).reverse)

/-- `s.split(c)` for a one-character separator (the only form used). -/
def splitOnChar (c : Char) : List Char → List (List Char)
  | [] => [[]]
  | x :: rest =>
    let r := splitOnChar c rest
    if x = c then [] :: r
    else
      match r with
      | h :: t => (x :: h) :: t
      | [] => [[x]]

/-- `s.replace(c, "")` for a one-character pattern (the only form used). -/
def removeChar (c : Char) (s : String) : String :=
  String.mk (s.toList.filter (· ≠ c))

/-- `int(s)` on a string: strip, optional sign, at least one digit. -/
def pyIntOfString (s : String) : Except PyErr Int :=
  let cs := (pyStrip s).toList
  match cs with
  | [] => .error .valueError
  | c :: rest =>
    if c = '-' then
      if !rest.isEmpty && rest.all (·.isDigit) then .ok (-(digitsToNat rest : Int))
      else .error .valueError
    else if c = '+' then
      if !rest.isEmpty && rest.all (·.isDigit) then .ok (digitsToNat rest : Int)
      else .error .valueError
    else if (c :: rest).all (·.isDigit) then .ok (digitsToNat (c :: rest) : Int)
    else .error .valueError

/-- Decimal number parsing for `float(s)`: digits with an optional
fractional part (the exponent and inf/nan forms never occur in this
pipeline and are not modelled). -/
def parseUnsignedRat (cs : List Char) : Option ℚ :=
  let ip := cs.takeWhile (·.isDigit)
  let rest := cs.dropWhile (·.isDigit)
  match rest with
  | [] => if ip.isEmpty then Option.none else some ((digitsToNat ip : ℚ))
  | '.' :: fr =>
    if fr.all (·.isDigit) && (!ip.isEmpty || !fr.isEmpty) then
      some ((digitsToNat ip : ℚ) + (digitsToNat fr : ℚ) / ((10 : ℚ) ^ fr.length))
    else Option.none
  | _ => Option.none

/-- `float(v)`: numeric coercion; raises ValueError on an unparsable
string and TypeError on a non-numeric, non-string value. -/
def pyFloat (v : PyVal) : Except PyErr ℚ :=
  match v with
  | .int i => .ok (i : ℚ)
  | .float q => .ok q
  | .bool b => .ok (if b then 1 else 0)
  | .str s =>
    let cs := (pyStrip s).toList
    match cs with
    | '-' :: rest =>
      match parseUnsignedRat rest with
      | some q => .ok (-q)
      | Option.none => .error .valueError
    | '+' :: rest =>
      match parseUnsignedRat rest with
      | some q => .ok q
      | Option.none => .error .valueError
    | _ =>
      match parseUnsignedRat cs with
      | some q => .ok q
      | Option.none => .error .valueError
  | _ => .error .typeError

/-- `str(v)`: Python display of a value. Integral floats print with a
trailing `.0` as in Python; the display of containers is abbreviated
(the code under study only ever applies `str` to scalars). -/
def pyStr : PyVal → String
  | .none => "None"
  | .bool b => if b then "True" else "False"
  | .int i => toString i
  | .float q => if q.den = 1 then toString q.num ++ ".0" else toString q
  | .str s => s
  | .list _ => "[...]"
  | .dict _ => "<dict>"

/-- `v[k]` subscript on an arbitrary value: KeyError on a dict missing
the key, TypeError on non-subscriptable values. -/
def pySub (v : PyVal) (k : String) : Except PyErr PyVal :=
  match v with
  | .dict d =>
    match dictGet d k with
    | some w => .ok w
    | Option.none => .error .keyError
  | _ => .error .typeError

/-- `d[k]` subscript on a dict. -/
def pySubD (d : Dict) (k : String) : Except PyErr PyVal :=
  match dictGet d k with
  | some w => .ok w
  | Option.none => .error .keyError

/-- `v[0]`: first element of a list or string (IndexError when empty),
KeyError on a dict, TypeError otherwise. -/
def pyIndex0 (v : PyVal) : Except PyErr PyVal :=
  match v with
  | .list (x :: _) => .ok x
  | .list [] => .error .indexError
  | .str s =>
    match s.toList with
    | c :: _ => .ok (.str (String.singleton c))
    | [] => .error .indexError
  | .dict _ => .error .keyError
  | _ => .error .typeError

/-- `for x in v`: the sequence of iteration values of `v`. Strings
iterate their characters and dicts their keys, exactly as in Python;
non-iterable values raise TypeError. -/
def pyIter (v : PyVal) : Except PyErr (List PyVal) :=
  match v with
  | .list l => .ok l
  | .str s => .ok (s.toList.map (fun c => PyVal.str (String.singleton c)))
  | .dict d => .ok (d.map (fun kv => PyVal.str kv.1))
  | _ => .error .typeError

/-- pydantic validation of a required `str` field. -/
def expectStr (v : PyVal) : Except PyErr String :=
  match v with
  | .str s => .ok s
  | _ => .error .validationError

/-- pydantic validation of an `Optional[str]` field. -/
def expectOptStr (v : PyVal) : Except PyErr (Option String) :=
  match v with
  | .str s => .ok (some s)
  | .none => .ok Option.none
  | _ => .error .validationError

/-- pydantic validation of a required `int` field. -/
def expectInt (v : PyVal) : Except PyErr Int :=
  match v with
  | .int i => .ok i
  | _ => .error .validationError

/-- pydantic validation of an `Optional[int]` field. -/
def expectOptInt (v : PyVal) : Except PyErr (Option Int) :=
  match v with
  | .int i => .ok (some i)
  | .none => .ok Option.none
  | _ => .error .validationError

/-- A `datetime` value. Only field-by-field (lexicographic) comparison
is ever performed on these values, never calendar arithmetic. -/
structure DateTime where
  year : Nat
  month : Nat
  day : Nat
  hour : Nat
  minute : Nat
  second : Nat
deriving DecidableEq

/-- Mixed-radix encoding of a `DateTime`. On values whose fields are in
range (month ≤ 12, day ≤ 31, hour ≤ 23, minute, second ≤ 59 — which
every constructor below checks) comparing keys is exactly Python's
lexicographic `datetime` comparison. -/
def DateTime.key (t : DateTime) : Nat :=
  ((((t.year * 13 + t.month) * 32 + t.day) * 24 + t.hour) * 60 + t.minute) * 60 + t.second

/-- Range check performed by the `datetime` constructor (Python also
checks the per-month day count; the coarser day ≤ 31 bound never
matters to the claims settled here). -/
def mkDateTimeChecked (y mo d h mi s : Nat) : Except PyErr DateTime :=
  if 1 ≤ mo && mo ≤ 12 && 1 ≤ d && d ≤ 31 && h ≤ 23 && mi ≤ 59 && s ≤ 59 then
    .ok ⟨y, mo, d, h, mi, s⟩
  else .error .valueError

/-- Read exactly `n` decimal digits from the front of a character list. -/
def takeNat (cs : List Char) (n : Nat) : Option (Nat × List Char) :=
  let ds := cs.take n
  if ds.length = n && ds.all (·.isDigit) then some (digitsToNat ds, cs.drop n)
  else Option.none

/-- Require character `c` at the front. -/
def expectChar (c : Char) (cs : List Char) : Option (List Char) :=
  match cs with
  | c2 :: rest => if c2 = c then some rest else Option.none
  | [] => Option.none

/-- Parse `YYYY-MM-DD` then hand back the rest. -/
def parseDatePart (cs : List Char) : Option (Nat × Nat × Nat × List Char) := do
  let (y, cs) ← takeNat cs 4
  let cs ← expectChar '-' cs
  let (mo, cs) ← takeNat cs 2
  let cs ← expectChar '-' cs
  let (d, cs) ← takeNat cs 2
  some (y, mo, d, cs)

/-- `datetime.fromisoformat` on the timestamp shapes this pipeline
produces and consumes: `YYYY-MM-DDTHH:MM:SS` or `YYYY-MM-DDTHH:MM`.
Non-strings raise TypeError, any other string ValueError. -/
def fromisoformat (v : PyVal) : Except PyErr DateTime :=
  match v with
  | .str s =>
    match (do
      let (y, mo, d, cs) ← parseDatePart s.toList
      let cs ← expectChar 'T' cs
      let (h, cs) ← takeNat cs 2
      let cs ← expectChar ':' cs
      let (mi, cs) ← takeNat cs 2
      match cs with
      | [] => some (y, mo, d, h, mi, 0)
      | ':' :: cs2 => do
        let (sec, cs3) ← takeNat cs2 2
        if cs3.isEmpty then some (y, mo, d, h, mi, sec) else Option.none
      | _ => Option.none) with
    | some (y, mo, d, h, mi, sec) => mkDateTimeChecked y mo d h mi sec
    | Option.none => .error .valueError
  | _ => .error .typeError

/-- `datetime.strptime(v, "%Y-%m-%d %H:%M")`: the exact format used for
SerpApi segment times. -/
def strptimeYmdHM (v : PyVal) : Except PyErr DateTime :=
  match v with
  | .str s =>
    match (do
      let (y, mo, d, cs) ← parseDatePart s.toList
      let cs ← expectChar ' ' cs
      let (h, cs) ← takeNat cs 2
      let cs ← expectChar ':' cs
      let (mi, cs) ← takeNat cs 2
      if cs.isEmpty then some (y, mo, d, h, mi) else Option.none) with
    | some (y, mo, d, h, mi) => mkDateTimeChecked y mo d h mi 0
    | Option.none => .error .valueError
  | _ => .error .typeError

/-- One optional regex group `(?:(\d+)X)?` of the duration pattern:
a maximal nonempty digit run followed by the suffix letter; on failure
the input position is unchanged. -/
def tryNumGroup (suffix : Char) (cs : List Char) : Option Nat × List Char :=
  match cs.takeWhile (·.isDigit), cs.dropWhile (·.isDigit) with
  | [], _ => (Option.none, cs)
  | d :: ds, c :: rest2 =>
    if c = suffix then (some (digitsToNat (d :: ds)), rest2) else (Option.none, cs)
  | _ :: _, [] => (Option.none, cs)

/-- normalize_offers.parse_duration: match the ISO-8601 duration regex
`PT(?:(\d+)H)?(?:(\d+)M)?` against the string and return
hours * 60 + minutes, each component defaulting to 0, and 0 when the
string does not start with `PT`. -/
def parse_duration (pt_duration : String) : Nat :=
  match pt_duration.toList with
  | 'P' :: 'T' :: rest =>
    let (h, rest2) := tryNumGroup 'H' rest
    let (m, _) := tryNumGroup 'M' rest2
    (h.getD 0) * 60 + m.getD 0
  | _ => 0

/-- models.Segment: one flown leg (pydantic model). -/
structure Segment where
  departure_iata : String
  arrival_iata : String
  departure_time : DateTime
  arrival_time : DateTime
  carrier_code : String
  flight_number : String
  duration_minutes : Int
  cabin_class : Option String := some "ECONOMY"
  aircraft : Option String := Option.none
  terminal : Option String := Option.none
  seats_available : Option Int := Option.none
  carrier_name : Option String := Option.none
deriving DecidableEq

/-- models.Offer: one purchasable itinerary (pydantic model). The
score-breakdown map is modelled as an association list from factor name
to the signed score contribution; the source stores a display string
containing the same signed amount, whose exact text no claim inspects. -/
structure Offer where
  id : String
  source : String
  price : ℚ
  currency : String
  total_duration_minutes : Int
  segments : List Segment
  carrier_main : String
  stops : Int
  score : ℚ := 0
  score_breakdown : List (String × ℚ) := []
deriving DecidableEq

/-- normalize_offers.extract_cabin: best-effort cabin extraction with a
catch-all returning "ECONOMY". The returned value may still be a
non-string (taken verbatim from the payload), in which case pydantic
validation of the Segment rejects the offer later. -/
def extract_cabin (raw : Dict) : PyVal :=
  let tps := dictGetD raw "travelerPricings" (.list [])
  if truthy tps = false then .str "ECONOMY"
  else
    match (do
      let t0 ← pyIndex0 tps
      let fds ← (match t0 with
        | .dict d => Except.ok (dictGetD d "fareDetailsBySegment" (.list []))
        | _ => Except.error PyErr.attributeError)
      if truthy fds = false then Except.ok (PyVal.str "ECONOMY")
      else do
        let f0 ← pyIndex0 fds
        match f0 with
        | .dict d2 => Except.ok (dictGetD d2 "cabin" (.str "ECONOMY"))
        | _ => Except.error PyErr.attributeError : Except PyErr PyVal) with
    | .ok v => v
    | .error _ => .str "ECONOMY"

/-- One segment of normalize_offers.normalize_amadeus_offer: the Segment
construction inside the `for seg in itinerary['segments']` loop. -/
def amadeusSegment (raw : Dict) (seg : PyVal) : Except PyErr Segment := do
  let dep ← pySub seg "departure"
  let arr ← pySub seg "arrival"
  let dep_iata ← expectStr (← pySub dep "iataCode")
  let arr_iata ← expectStr (← pySub arr "iataCode")
  let dep_time ← fromisoformat (← pySub dep "at")
  let arr_time ← fromisoformat (← pySub arr "at")
  let carrier ← expectStr (← pySub seg "carrierCode")
  let number ← expectStr (← pySub seg "number")
  let segdur ← (match (← pySub seg "duration") with
    | .str s => Except.ok s
    | _ => Except.error PyErr.typeError)
  let terminal ← expectOptStr (← (match dep with
    | .dict dd => Except.ok (dictGetD dd "terminal" PyVal.none)
    | _ => Except.error PyErr.attributeError))
  let aircraft ← expectOptStr (← (match seg with
    | .dict sd =>
      (match dictGetD sd "aircraft" (.dict []) with
        | .dict ad => Except.ok (dictGetD ad "code" PyVal.none)
        | _ => Except.error PyErr.attributeError)
    | _ => Except.error PyErr.typeError))
  let cabin ← expectOptStr (extract_cabin raw)
  let seats ← expectOptInt (dictGetD raw "numberOfBookableSeats" PyVal.none)
  Except.ok
    { departure_iata := dep_iata, arrival_iata := arr_iata,
      departure_time := dep_time, arrival_time := arr_time,
      carrier_code := carrier, flight_number := number,
      duration_minutes := (parse_duration segdur : Int),
      cabin_class := cabin, aircraft := aircraft, terminal := terminal,
      seats_available := seats, carrier_name := Option.none }

/-- The segments loop of normalize_amadeus_offer: an exception for any
segment aborts the whole offer (there is no per-segment handler). -/
def amadeusSegments (raw : Dict) : List PyVal → Except PyErr (List Segment)
  | [] => .ok []
  | s :: rest => do
    let seg ← amadeusSegment raw s
    let more ← amadeusSegments raw rest
    .ok (seg :: more)

/-- The fields computed by normalize_amadeus_offer before the final
Offer construction, in source order. -/
structure AmadeusParts where
  total_duration : Nat
  segments : List Segment
  price : ℚ
  currency : String
  id : String
  carrier_main : String

/-- Field extraction of normalize_offers.normalize_amadeus_offer. -/
def amadeusParts (raw : Dict) : Except PyErr AmadeusParts := do
  let itins ← pySubD raw "itineraries"
  let itinerary ← pyIndex0 itins
  let durs ← (match (← pySub itinerary "duration") with
    | .str s => Except.ok s
    | _ => Except.error PyErr.typeError)
  let segl ← pyIter (← pySub itinerary "segments")
  let segments ← amadeusSegments raw segl
  let pricev ← pySubD raw "price"
  let price ← pyFloat (← pySub pricev "total")
  let currency ← expectStr (← pySub pricev "currency")
  let id ← expectStr (← pySubD raw "id")
  let vac := dictGetD raw "validatingAirlineCodes" PyVal.none
  let carrier_main ← (if truthy vac then do
      expectStr (← pyIndex0 vac)
    else match segments with
      | s0 :: _ => Except.ok s0.carrier_code
      | [] => Except.error PyErr.indexError)
  Except.ok
    { total_duration := parse_duration durs, segments := segments,
      price := price, currency := currency, id := id, carrier_main := carrier_main }

/-- normalize_offers.normalize_amadeus_offer: also used verbatim for
`ena_scraper`-tagged payloads (which are pre-shaped to the Amadeus
format); note the source tag of the produced Offer is always
"amadeus", exactly as in the source. -/
def normalize_amadeus_offer (raw : Dict) : Except PyErr Offer :=
  (amadeusParts raw).map (fun p =>
    { id := p.id, source := "amadeus", price := p.price, currency := p.currency,
      total_duration_minutes := (p.total_duration : Int), segments := p.segments,
      carrier_main := p.carrier_main, stops := (p.segments.length : Int) - 1 })

/-- One segment of normalize_offers.normalize_serpapi_offer; `now` is
the wall clock substituted when a time field is absent. -/
def serpSegment (now : DateTime) (f : PyVal) : Except PyErr Segment := do
  let fd ← (match f with
    | .dict d => Except.ok d
    | _ => Except.error PyErr.attributeError)
  let dep_iata ← expectStr (← (match dictGetD fd "departure_airport" (.dict []) with
    | .dict d => Except.ok (dictGetD d "id" PyVal.none)
    | _ => Except.error PyErr.attributeError))
  let arr_iata ← expectStr (← (match dictGetD fd "arrival_airport" (.dict []) with
    | .dict d => Except.ok (dictGetD d "id" PyVal.none)
    | _ => Except.error PyErr.attributeError))
  let dep_time ← (match dictGet fd "departure_time" with
    | some v => strptimeYmdHM v
    | Option.none => Except.ok now)
  let arr_time ← (match dictGet fd "arrival_time" with
    | some v => strptimeYmdHM v
    | Option.none => Except.ok now)
  let carrier ← expectStr (dictGetD fd "airline_code" (.str ""))
  let fnum ← expectStr (dictGetD fd "flight_number" (.str ""))
  let dur ← expectInt (dictGetD fd "duration" (.int 0))
  let cabin ← expectOptStr (dictGetD fd "travel_class" PyVal.none)
  Except.ok
    { departure_iata := dep_iata, arrival_iata := arr_iata,
      departure_time := dep_time, arrival_time := arr_time,
      carrier_code := carrier, flight_number := fnum,
      duration_minutes := dur, cabin_class := cabin }

/-- The segments loop of normalize_serpapi_offer. -/
def serpSegments (now : DateTime) : List PyVal → Except PyErr (List Segment)
  | [] => .ok []
  | f :: rest => do
    let seg ← serpSegment now f
    let more ← serpSegments now rest
    .ok (seg :: more)

/-- The first, body-less `for` loop of normalize_serpapi_offer. Its body
is `pass`, but evaluating its iterable can still raise (for example
`raw['flights_cluster'][0]` on an empty cluster list), so it is kept. -/
def serpDeadLoop (raw : Dict) : Except PyErr Unit := do
  let it ← (if (dictGet raw "flights_cluster").isSome then do
      let fc0 ← pyIndex0 (dictGetD raw "flights_cluster" (.list [.dict []]))
      match fc0 with
      | .dict d => Except.ok (dictGetD d "flights" (.list []))
      | _ => Except.error PyErr.attributeError
    else Except.ok (dictGetD raw "flights" (.list [])))
  let _ ← pyIter it
  Except.ok ()

/-- The fields computed by normalize_serpapi_offer before the final
Offer construction, in source order. -/
structure SerpParts where
  segments : List Segment
  id : String
  price : ℚ
  total_duration : Int

/-- Field extraction of normalize_offers.normalize_serpapi_offer. -/
def serpParts (now : DateTime) (raw : Dict) : Except PyErr SerpParts := do
  let _ ← serpDeadLoop raw
  let fl ← pyIter (dictGetD raw "flights" (.list []))
  let segments ← serpSegments now fl
  let id ← expectStr (dictGetD raw "token"
    (.str ("serp_" ++ pyStr (dictGetD raw "price" PyVal.none))))
  let price ← pyFloat (dictGetD raw "price" (.int 0))
  let total_duration ← expectInt (dictGetD raw "total_duration" (.int 0))
  Except.ok
    { segments := segments, id := id, price := price,
      total_duration := total_duration }

/-- normalize_offers.normalize_serpapi_offer. -/
def normalize_serpapi_offer (now : DateTime) (raw : Dict) : Except PyErr Offer :=
  (serpParts now raw).map (fun p =>
    { id := p.id, source := "serpapi", price := p.price, currency := "JPY",
      total_duration_minutes := p.total_duration, segments := p.segments,
      carrier_main := (match p.segments with
        | s0 :: _ => s0.carrier_code
        | [] => "UNK"),
      stops := (p.segments.length : Int) - 1 })

/-- The body of the per-payload `try` block of normalize_offers: dispatch
on the `_source` tag; unknown tags are silently dropped. -/
def normalizeStep (now : DateTime) (raw : Dict) : Except PyErr (Option Offer) :=
  match dictGet raw "_source" with
  | some (.str "amadeus") => do
    let o ← normalize_amadeus_offer raw
    .ok (some o)
  | some (.str "serpapi") => do
    let o ← normalize_serpapi_offer now raw
    .ok (some o)
  | some (.str "ena_scraper") => do
    let o ← normalize_amadeus_offer raw
    .ok (some o)
  | _ => .ok Option.none

/-- The effective result of one loop iteration of normalize_offers: the
offer when the payload normalizes, none when it is skipped (unknown tag
or exception). -/
def normalizeOne (now : DateTime) (raw : Dict) : Option Offer :=
  match normalizeStep now raw with
  | .ok r => r
  | .error _ => Option.none

/-- normalize_offers.normalize_offers: dispatch each payload, with the
per-payload `except Exception: continue` handler skipping any payload
whose conversion raises. (The batch type is `list[dict]`, as annotated
in the source: each raw payload is a dict.) -/
def normalize_offers (now : DateTime) (raw_offers : List Dict) : List Offer :=
  match raw_offers with
  | [] => []
  | raw :: rest =>
    match normalizeStep now raw with
    | .ok (some o) => o :: normalize_offers now rest
    | .ok Option.none => normalize_offers now rest
    | .error _ => normalize_offers now rest

/-- Comparison key of ranking.rank_offers: `sorted(key=score, reverse=True)`,
i.e. a sorts before b when b's score is at most a's. -/
def scoreLe (a b : Offer) : Bool := decide (b.score ≤ a.score)

/-- Whether the `preferred_carrier and offer.carrier_main == preferred_carrier`
test of ranking.calculate_score fires. -/
def carrierBonus (offer : Offer) (prefs : List (String × PyVal)) : Bool :=
  match lookupStr prefs "carrier" with
  | some pc =>
    truthy pc && (match pc with
      | .str t => offer.carrier_main == t
      | _ => false)
  | Option.none => false

/-- ranking.calculate_score: returns the score and the offer with its
mutable `score` and `score_breakdown` fields updated. -/
def calculate_score (offer : Offer) (prefs : List (String × PyVal)) : ℚ × Offer :=
  let price_penalty : ℚ := offer.price / 1000
  let duration_penalty : ℚ := (offer.total_duration_minutes : ℚ) / 10
  let stops_penalty : ℚ := (offer.stops : ℚ) * 50
  let base : ℚ := 1000 - price_penalty - duration_penalty - stops_penalty
  let breakdown0 : List (String × ℚ) :=
    [("price", -price_penalty), ("duration", -duration_penalty), ("stops", -stops_penalty)]
  let score := if carrierBonus offer prefs then base + 100 else base
  let breakdown :=
    if carrierBonus offer prefs then breakdown0 ++ [("carrier", 100)] else breakdown0
  (score, { offer with score := score, score_breakdown := breakdown })

/-- ranking.rank_offers: score every offer (mutating each), then return
them sorted by score descending; Python's `sorted` is a stable sort,
modelled with the stable `List.mergeSort`. prefs-is-None defaulting
collapses to the empty preferences list. -/
def rank_offers (offers : List Offer) (prefs : List (String × PyVal)) : List Offer :=
  (offers.map (fun o => (calculate_score o prefs).2)).mergeSort scoreLe

/-- The scored-but-unsorted list that rank_offers sorts. -/
def scoredOffers (offers : List Offer) (prefs : List (String × PyVal)) : List Offer :=
  offers.map (fun o => (calculate_score o prefs).2)

/-- cache.SimpleCache's backing dict: key to (value, expire_at); clock
instants are rationals. -/
abbrev CacheStore (α : Type) := String → Option (α × ℚ)

/-- cache.SimpleCache.set at clock instant `now`. -/
def SimpleCache.set {α : Type} (store : CacheStore α) (key : String) (value : α)
    (ttl_seconds : ℚ) (now : ℚ) : CacheStore α :=
  fun k => if k = key then some (value, now + ttl_seconds) else store k

/-- cache.SimpleCache.get at clock instant `now`: returns the hit (if
any) and the store after the call (an expired entry is deleted). -/
def SimpleCache.get {α : Type} (store : CacheStore α) (key : String) (now : ℚ) :
    Option α × CacheStore α :=
  match store key with
  | some (value, expire_at) =>
    if now < expire_at then (some value, store)
    else (Option.none, fun k => if k = key then Option.none else store k)
  | Option.none => (Option.none, store)

/-- search_offers.CITY_MAP: the static city/airport table, verbatim. -/
def CITY_MAP : List (String × String) := [
  ("東京", "TYO"), ("TOKYO", "TYO"), ("TYO", "TYO"), ("羽田", "HND"), ("HANEDA", "HND"),
  ("HND", "HND"), ("成田", "NRT"), ("NARITA", "NRT"), ("NRT", "NRT"),
  ("大阪", "OSA"), ("OSAKA", "OSA"), ("OSA", "OSA"), ("関西", "KIX"), ("KIX", "KIX"),
  ("ITAMI", "ITM"), ("伊丹", "ITM"), ("ITM", "ITM"),
  ("札幌", "SPK"), ("SAPPORO", "SPK"), ("SPK", "SPK"), ("千歳", "CTS"), ("CTS", "CTS"),
  ("福岡", "FUK"), ("FUKUOKA", "FUK"), ("FUK", "FUK"),
  ("広島", "HIJ"), ("HIROSHIMA", "HIJ"), ("HIJ", "HIJ"),
  ("沖縄", "OKA"), ("OKINAWA", "OKA"), ("OKA", "OKA"), ("那覇", "OKA"),
  ("名古屋", "NGO"), ("NAGOYA", "NGO"), ("NGO", "NGO"),
  ("LOS ANGELES", "LAX"), ("LAX", "LAX"), ("洛杉矶", "LAX"), ("ロサンゼルス", "LAX"),
  ("NEW YORK", "NYC"), ("NYC", "NYC"), ("ニューヨーク", "NYC"),
  ("LONDON", "LON"), ("ロンドン", "LON"),
  ("PARIS", "PAR"), ("パリ", "PAR"),
  ("HONOLULU", "HNL"), ("ホノルル", "HNL")]

/-- `input.strip().upper()` (ASCII case mapping; the non-ASCII keys of
the table are unaffected by upper-casing in Python too). -/
def cleanCode (input_str : String) : String :=
  String.mk ((pyStrip input_str).toList.map Char.toUpper)

/-- Result of one search_offers.resolve_code call: the resolved string,
the dynamic city cache after the call, and how many external
location-search calls were performed (0 or 1). -/
structure ResolveOutcome where
  result : String
  cache : String → Option String
  externalCalls : Nat

/-- search_offers.resolve_code. `amadeusOk` models whether the module's
Amadeus client initialised (non-None); `oracle` models the external
location search, returning the first result's IATA code, or none when
the call raises, returns no data, or the first result lacks a code —
all of which the source's catch-all/falsy checks treat alike: fall
through to returning the cleaned input without caching anything. -/
def resolve_code (amadeusOk : Bool) (oracle : String → Option String)
    (cache : String → Option String) (input_str : String) : ResolveOutcome :=
  if input_str = "" then ⟨"", cache, 0⟩ else
  let clean_str := cleanCode input_str
  match lookupStr CITY_MAP clean_str with
  | some code => ⟨code, cache, 0⟩
  | Option.none =>
    match cache clean_str with
    | some code => ⟨code, cache, 0⟩
    | Option.none =>
      if amadeusOk then
        match oracle clean_str with
        | some found => ⟨found, fun k => if k = clean_str then some found else cache k, 1⟩
        | Option.none => ⟨clean_str, cache, 1⟩
      else ⟨clean_str, cache, 0⟩

/-- `dep_h, dep_m = map(int, t.split(':'))`: exactly two colon-separated
int fields, ValueError otherwise. -/
def splitHM (t : String) : Except PyErr (Int × Int) :=
  match splitOnChar ':' t.toList with
  | [a, b] => do
    let h ← pyIntOfString (String.mk a)
    let m ← pyIntOfString (String.mk b)
    Except.ok (h, m)
  | _ => Except.error PyErr.valueError

/-- A string-typed field read `d[k]` followed by a string method call
(AttributeError on a non-string). -/
def pySubStr (d : Dict) (k : String) : Except PyErr String := do
  match (← pySubD d k) with
  | .str s => Except.ok s
  | _ => Except.error PyErr.attributeError

/-- scrape_ena.build_amadeus_format: convert one scraped/AI-extracted
flight record into an Amadeus-compatible raw payload. Both timestamps
are stamped with the same `date`; the duration uses Python floor
division/modulo (Int.fdiv/Int.fmod) and so can read `PT-2H35M` for an
overnight arrival. -/
def build_amadeus_format (flight_data : Dict) (date : String) : Except PyErr Dict := do
  let dep_time ← pySubStr flight_data "departure_time"
  let arr_time ← pySubStr flight_data "arrival_time"
  let dep_datetime := date ++ "T" ++ dep_time ++ ":00"
  let arr_datetime := date ++ "T" ++ arr_time ++ ":00"
  let (dep_h, dep_m) ← splitHM dep_time
  let (arr_h, arr_m) ← splitHM arr_time
  let duration_mins : Int := (arr_h * 60 + arr_m) - (dep_h * 60 + dep_m)
  let hours := Int.fdiv duration_mins 60
  let minutes := Int.fmod duration_mins 60
  let duration_str := "PT" ++ toString hours ++ "H" ++ toString minutes ++ "M"
  let idv ← pySubD flight_data "id"
  let airline ← pySubD flight_data "airline"
  let flight_number ← pySubD flight_data "flight_number"
  let price ← pySubD flight_data "price"
  let origin ← pySubD flight_data "origin"
  let destination ← pySubD flight_data "destination"
  Except.ok [
    ("_source", .str "ena_scraper"),
    ("id", idv),
    ("type", .str "flight-offer"),
    ("price", .dict [("total", .str (pyStr price)), ("currency", .str "JPY")]),
    ("validatingAirlineCodes", .list [airline]),
    ("itineraries", .list [.dict [
      ("duration", .str duration_str),
      ("segments", .list [.dict [
        ("departure", .dict [("iataCode", origin), ("at", .str dep_datetime)]),
        ("arrival", .dict [("iataCode", destination), ("at", .str arr_datetime)]),
        ("carrierCode", airline),
        ("number", flight_number),
        ("duration", .str duration_str),
        ("aircraft", .dict [("code", .str "738")])]])]]),
    ("numberOfBookableSeats", .int 9),
    ("travelerPricings", .list [.dict [("fareDetailsBySegment",
      .list [.dict [("cabin", .str "ECONOMY")]])]])]

/-- A parsed JSON file system: path to parsed JSON content (absent or
unparsable files are `none`, matching the source's load guards). -/
abbrev Fs := String → Option PyVal

/-- One `a#add_cart` row as seen by the Deterministic Extractor: the
four `query_selector` results inside the row (none = element missing,
which makes the row be skipped). -/
structure Row where
  flight_number : Option String
  departure_time : Option String
  arrival_time : Option String
  price : Option String

/-- The external capabilities of one scrape_ena_flights run: the
rendered page, the DOM query, the AI extractor (an empty list models
both "no flights found" and any internal failure, exactly the falsy
check used in the source) and the AI selector healer (none models a
None return). -/
structure ScrapeEnv where
  pageContent : String
  queryAll : String → List Row
  aiExtract : String → String → String → String → List Dict
  aiSelectorFix : String → List Dict → Option PyVal

/-- scrape_ena: the hard-coded default selector configuration. -/
def defaultSelectors : Dict := [
  ("container", .str "a#add_cart"),
  ("flight_number", .str "li:nth-child(1) p:nth-child(2)"),
  ("departure_time", .str "li:nth-child(2) p:first-child"),
  ("arrival_time", .str "li:nth-child(4) p:first-child"),
  ("price", .str "li:nth-child(7) p")]

/-- scrape_ena: defaults overridden by `scraper_config.json["selectors"]`
when that file parses to a dict holding a dict; any failure in the
load is caught and the defaults kept. -/
def loadSelectors (fs : String → Option PyVal) : Dict :=
  match fs "scraper_config.json" with
  | some (.dict cfg) =>
    match dictGetD cfg "selectors" (.dict []) with
    | .dict s => dictUpdate defaultSelectors s
    | _ => defaultSelectors
  | _ => defaultSelectors

/-- One iteration of the per-row parsing loop of scrape_ena_flights
(`idx` is the enumerate counter): any missing element, price-parse
failure or conversion error skips the row. -/
def parseRow (origin dest date : String) (idx : Nat) (r : Row) : Option Dict :=
  match r.flight_number, r.departure_time, r.arrival_time, r.price with
  | some fn0, some dt0, some at0, some pt0 =>
    let flight_number := pyStrip fn0
    let dep_time := pyStrip dt0
    let arr_time := pyStrip at0
    let price_text := pyStrip pt0
    let price_clean := pyStrip (removeChar '円' (removeChar ',' price_text))
    match (if price_clean = "" then Except.ok (PyVal.int 0)
           else (pyFloat (.str price_clean)).map PyVal.float : Except PyErr PyVal) with
    | .error _ => Option.none
    | .ok price =>
      let airline_code := if flight_number.length ≥ 2
        then String.mk (flight_number.toList.take 2) else "NH"
      let flight_num := if flight_number.length > 2
        then String.mk (flight_number.toList.drop 2) else flight_number
      let fd : Dict := [
        ("id", .str ("ENA_" ++ toString (idx + 1) ++ "_" ++ flight_number)),
        ("airline", .str airline_code),
        ("flight_number", .str flight_num),
        ("departure_time", .str dep_time),
        ("arrival_time", .str arr_time),
        ("price", price),
        ("origin", .str origin),
        ("destination", .str dest),
        ("date", .str date)]
      match build_amadeus_format fd date with
      | .ok d => some d
      | .error _ => Option.none
  | _, _, _, _ => Option.none

/-- The full per-row loop of scrape_ena_flights. -/
def parseRows (origin dest date : String) (idx : Nat) : List Row → List Dict
  | [] => []
  | r :: rest =>
    match parseRow origin dest date idx r with
    | some d => d :: parseRows origin dest date (idx + 1) rest
    | Option.none => parseRows origin dest date (idx + 1) rest

/-- The `for f in ai_results` conversion loop of the AI-fallback branch.
It runs outside any per-item handler, so a conversion error aborts the
loop; the outer catch-all then returns whatever was appended so far. -/
def buildAiResults (date : String) : List Dict → List Dict
  | [] => []
  | f :: rest =>
    match build_amadeus_format f date with
    | .ok d => d :: buildAiResults date rest
    | .error _ => []

/-- The observable outcome of one scrape_ena_flights run: the raw
payloads returned, the warning, the file system after the run, and
whether/how the AI fallback and the selector healer were invoked. -/
structure ScrapeOutcome where
  results : List Dict
  warning : Option String
  fs : String → Option PyVal
  aiInvoked : Bool
  aiHtml : Option String
  healerInvoked : Bool

/-- The suggestion value the healing branch persists: the healer's
result when it is non-None and truthy, nothing otherwise. -/
def healWritten (env : ScrapeEnv) (origin dest date : String) : Option PyVal :=
  match env.aiSelectorFix env.pageContent
      (env.aiExtract env.pageContent origin dest date) with
  | some sj => if truthy sj then some sj else Option.none
  | Option.none => Option.none

/-- scrape_ena.scrape_ena_flights from the point where the results
marker has loaded (lines 69-202 of the source): load selectors, query
rows; on zero rows invoke the AI fallback with the full page content,
and on AI success invoke the healer and persist its suggestion to
`scraper_config_suggestion.json`; on AI failure fall through to the
(empty) row loop. A non-string container selector makes the DOM query
raise, which the outer catch-all turns into an empty result. -/
def scrape_ena_core (env : ScrapeEnv) (fs : String → Option PyVal)
    (origin dest date : String) : ScrapeOutcome :=
  match dictGetD (loadSelectors fs) "container" PyVal.none with
  | .str containerSel =>
    if (env.queryAll containerSel).isEmpty then
      if (env.aiExtract env.pageContent origin dest date).isEmpty then
        { results := [], warning := Option.none, fs := fs,
          aiInvoked := true, aiHtml := some env.pageContent, healerInvoked := false }
      else
        { results := buildAiResults date (env.aiExtract env.pageContent origin dest date),
          warning := match healWritten env origin dest date with
            | some _ => some "Selectors updated by AI! Check Settings."
            | Option.none => Option.none,
          fs := fun p => match healWritten env origin dest date with
            | some sj => if p = "scraper_config_suggestion.json" then some sj else fs p
            | Option.none => fs p,
          aiInvoked := true, aiHtml := some env.pageContent, healerInvoked := true }
    else
      { results := parseRows origin dest date 0 (env.queryAll containerSel),
        warning := Option.none, fs := fs,
        aiInvoked := false, aiHtml := Option.none, healerInvoked := false }
  | _ =>
    { results := [], warning := Option.none, fs := fs,
      aiInvoked := false, aiHtml := Option.none, healerInvoked := false }

/-- main.update_scraper_config (POST /scraper/config): stamp the new
configuration with `last_updated`, write it to `scraper_config.json`,
then delete `scraper_config_suggestion.json` if it exists. -/
def update_scraper_config (new_config : Dict) (now_iso : String)
    (fs : String → Option PyVal) : String → Option PyVal :=
  let cfg := dictSet new_config "last_updated" (.str now_iso)
  fun p =>
    if p = "scraper_config.json" then some (.dict cfg)
    else if p = "scraper_config_suggestion.json" then Option.none
    else fs p

/-- A fixed clock instant for exercising the normalizer (the wall clock
only matters to SerpApi payloads with absent time fields). -/
def dt0 : DateTime := ⟨2025, 1, 1, 0, 0, 0⟩

/-- A well-formed Amadeus-shaped raw payload. -/
def valid1 : Dict := [("_source", .str "amadeus"), ("id", .str "A1"),
  ("itineraries", .list [.dict [("duration", .str "PT1H25M"),
    ("segments", .list [.dict [
      ("departure", .dict [("iataCode", .str "HND"), ("at", .str "2025-01-01T07:10:00")]),
      ("arrival", .dict [("iataCode", .str "HIJ"), ("at", .str "2025-01-01T08:35:00")]),
      ("carrierCode", .str "NH"), ("number", .str "671"), ("duration", .str "PT1H25M")]])]]),
  ("price", .dict [("total", .str "18000"), ("currency", .str "JPY")]),
  ("validatingAirlineCodes", .list [.str "NH"])]

/-- A second well-formed Amadeus-shaped raw payload. -/
def valid2 : Dict := [("_source", .str "amadeus"), ("id", .str "C7"),
  ("itineraries", .list [.dict [("duration", .str "PT2H0M"),
    ("segments", .list [.dict [
      ("departure", .dict [("iataCode", .str "HND"), ("at", .str "2025-01-01T12:00:00")]),
      ("arrival", .dict [("iataCode", .str "OKA"), ("at", .str "2025-01-01T14:00:00")]),
      ("carrierCode", .str "JL"), ("number", .str "905"), ("duration", .str "PT2H0M")]])]]),
  ("price", .dict [("total", .str "25000"), ("currency", .str "JPY")]),
  ("validatingAirlineCodes", .list [.str "JL"])]

/-- An Amadeus-shaped raw payload whose `price` key is missing. -/
def missingPrice : Dict := [("_source", .str "amadeus"), ("id", .str "B1"),
  ("itineraries", .list [.dict [("duration", .str "PT1H0M"),
    ("segments", .list [.dict [
      ("departure", .dict [("iataCode", .str "HND"), ("at", .str "2025-01-01T09:00:00")]),
      ("arrival", .dict [("iataCode", .str "ITM"), ("at", .str "2025-01-01T10:00:00")]),
      ("carrierCode", .str "JL"), ("number", .str "101"), ("duration", .str "PT1H0M")]])]]),
  ("validatingAirlineCodes", .list [.str "JL"])]

/-- An otherwise well-formed Amadeus-shaped payload whose itinerary
duration token is malformed (does not start with PT). -/
def amadeusBadDur : Dict := [("_source", .str "amadeus"), ("id", .str "D1"),
  ("itineraries", .list [.dict [("duration", .str "XYZ"),
    ("segments", .list [.dict [
      ("departure", .dict [("iataCode", .str "HND"), ("at", .str "2025-01-01T07:10:00")]),
      ("arrival", .dict [("iataCode", .str "HIJ"), ("at", .str "2025-01-01T08:35:00")]),
      ("carrierCode", .str "NH"), ("number", .str "671"), ("duration", .str "PT1H25M")]])]]),
  ("price", .dict [("total", .str "18000"), ("currency", .str "JPY")]),
  ("validatingAirlineCodes", .list [.str "NH"])]

/-- A SerpApi-tagged payload carrying no flights at all. -/
def serpEmptyRaw : Dict := [("_source", .str "serpapi")]

/-- The Segment that `valid1` normalizes to. -/
def seg1 : Segment :=
  { departure_iata := "HND", arrival_iata := "HIJ",
    departure_time := ⟨2025, 1, 1, 7, 10, 0⟩, arrival_time := ⟨2025, 1, 1, 8, 35, 0⟩,
    carrier_code := "NH", flight_number := "671", duration_minutes := 85,
    cabin_class := some "ECONOMY", aircraft := Option.none, terminal := Option.none,
    seats_available := Option.none, carrier_name := Option.none }

/-- The Offer that `valid1` normalizes to. -/
def offer1 : Offer :=
  { id := "A1", source := "amadeus", price := 18000, currency := "JPY",
    total_duration_minutes := 85, segments := [seg1], carrier_main := "NH", stops := 0 }

/-- An Offer whose main carrier is the empty string (as the SerpApi
normalizer produces when a segment's airline code is absent). -/
def emptyCarrierOffer : Offer :=
  { id := "E", source := "serpapi", price := 0, currency := "JPY",
    total_duration_minutes := 0, segments := [], carrier_main := "", stops := 0 }

/-- A scored test offer for the ranking claims. -/
def nhOffer : Offer :=
  { id := "W", source := "amadeus", price := 18000, currency := "JPY",
    total_duration_minutes := 85, segments := [], carrier_main := "NH", stops := 1 }

/-- A cheaper test offer for the ranking claims. -/
def jlOffer : Offer :=
  { id := "Y", source := "amadeus", price := 1000, currency := "JPY",
    total_duration_minutes := 85, segments := [], carrier_main := "JL", stops := 0 }

/-- A scraped row as scrape_ena would extract for an overnight flight:
departure 23:50, arrival 01:10 the next morning. -/
def overnightRow : Dict := [("id", .str "ENA_1_NH099"), ("airline", .str "NH"),
  ("flight_number", .str "099"), ("departure_time", .str "23:50"),
  ("arrival_time", .str "01:10"), ("price", .float 10000),
  ("origin", .str "HND"), ("destination", .str "OKA"), ("date", .str "2025-01-01")]

/-- An AI-extracted flight record (all four mandatory fields present). -/
def aiFlight1 : Dict := [("airline", .str "NH"), ("flight_number", .str "123"),
  ("departure_time", .str "10:00"), ("arrival_time", .str "11:30"),
  ("price", .int 15000), ("origin", .str "HND"), ("destination", .str "OKA"),
  ("date", .str "2025-01-01"), ("id", .str "AI_0_123")]

/-- The selector suggestion produced by the healer in the test run. -/
def suggVal : PyVal := .dict [("container", .str "li.flight-row"),
  ("flight_number", .str "p.fn"), ("departure_time", .str "p.dep"),
  ("arrival_time", .str "p.arr"), ("price", .str "p.price")]

/-- A scrape environment where the selectors match nothing and the AI
fallback also fails. -/
def envFail : ScrapeEnv :=
  { pageContent := "<html>no rows</html>", queryAll := fun _ => [],
    aiExtract := fun _ _ _ _ => [], aiSelectorFix := fun _ _ => Option.none }

/-- A scrape environment where the selectors match nothing, the AI
fallback succeeds, and the healer returns a suggestion. -/
def envAI : ScrapeEnv :=
  { pageContent := "<html>page</html>", queryAll := fun _ => [],
    aiExtract := fun _ _ _ _ => [aiFlight1], aiSelectorFix := fun _ _ => some suggVal }

/-- A file system holding an active selector configuration. -/
def fsWithCfg : Fs := fun p =>
  if p = "scraper_config.json"
  then some (.dict [("selectors", .dict [("container", .str "div.x")])])
  else Option.none

/-- `Except.map` hits `ok` exactly when the argument does. -/
theorem exceptMap_eq_ok {ε α β : Type} {f : α → β} {x : Except ε α} {b : β} :
    Except.map f x = .ok b ↔ ∃ a, x = .ok a ∧ f a = b := by
  cases x <;> simp [Except.map]

/-- **C5.** After `set(key, v, ttl)` at instant `now`, a `get(key)` at
any instant strictly before the expiry instant `now + ttl` returns `v`
and leaves the store unchanged; a `get(key)` at or after the expiry
instant returns absent and deletes the entry (lazy eviction). -/
theorem C5_cache_set_get_ttl {α : Type} (store : CacheStore α) (key : String)
    (v : α) (ttl now t : ℚ) :
    (t < now + ttl →
      SimpleCache.get (SimpleCache.set store key v ttl now) key t
        = (some v, SimpleCache.set store key v ttl now)) ∧
    (now + ttl ≤ t →
      (SimpleCache.get (SimpleCache.set store key v ttl now) key t).1 = Option.none ∧
      (SimpleCache.get (SimpleCache.set store key v ttl now) key t).2 key = Option.none) := by
  constructor
  · intro h
    simp [SimpleCache.get, SimpleCache.set, h]
  · intro h
    simp [SimpleCache.get, SimpleCache.set, not_lt.mpr h]

/-- Witness for C5 at key "k", value 7, ttl 300 set at instant 0: a get
at instant 100 hits, a get at instant 300 misses and evicts. -/
theorem C5_cache_set_get_ttl_witness :
    SimpleCache.get (SimpleCache.set (fun _ => Option.none) "k" (7 : ℕ) 300 0) "k" 100
      = (some 7, SimpleCache.set (fun _ => Option.none) "k" (7 : ℕ) 300 0) ∧
    (SimpleCache.get (SimpleCache.set (fun _ => Option.none) "k" (7 : ℕ) 300 0) "k" 300).1
      = Option.none ∧
    (SimpleCache.get (SimpleCache.set (fun _ => Option.none) "k" (7 : ℕ) 300 0) "k" 300).2 "k"
      = Option.none :=
  ⟨(C5_cache_set_get_ttl (fun _ => Option.none) "k" 7 300 0 100).1 (by norm_num),
   (C5_cache_set_get_ttl (fun _ => Option.none) "k" 7 300 0 300).2 (by norm_num)⟩

/-- **C6 counterexample.** For the unknown input "ZZZZ" with an external
lookup that fails (no data), the first call performs one external call
but caches nothing, so the second identical call again performs one
external call, not zero as the claim states. -/
theorem C6_counterexample_failed_lookup_not_cached :
    (resolve_code true (fun _ => Option.none) (fun _ => Option.none) "ZZZZ").externalCalls
      = 1 ∧
    (resolve_code true (fun _ => Option.none)
      (resolve_code true (fun _ => Option.none) (fun _ => Option.none) "ZZZZ").cache
      "ZZZZ").externalCalls = 1 := by
  constructor <;> decide

/-- **C6 (amended).** resolve_code resolves a static-table hit with zero
external calls; a dynamic-cache hit with zero external calls; an
unknown input with exactly one external call, and caches the result
when (and only when) the lookup succeeds, so that the second call with
the same input performs zero external calls; on a failed lookup, or
with no Amadeus client, it returns the normalized input unchanged —
and it is a total function (never raises). -/
theorem C6_resolve_code_resolution_order (amadeusOk : Bool)
    (oracle : String → Option String) (cache : String → Option String)
    (input : String) (h0 : input ≠ "") :
    (∀ c, lookupStr CITY_MAP (cleanCode input) = some c →
      resolve_code amadeusOk oracle cache input = ⟨c, cache, 0⟩) ∧
    (lookupStr CITY_MAP (cleanCode input) = Option.none →
      ∀ c, cache (cleanCode input) = some c →
      resolve_code amadeusOk oracle cache input = ⟨c, cache, 0⟩) ∧
    (lookupStr CITY_MAP (cleanCode input) = Option.none →
      cache (cleanCode input) = Option.none → amadeusOk = true →
      (resolve_code amadeusOk oracle cache input).externalCalls = 1 ∧
      (∀ code, oracle (cleanCode input) = some code →
        (resolve_code amadeusOk oracle cache input).result = code ∧
        (resolve_code amadeusOk oracle cache input).cache (cleanCode input) = some code ∧
        resolve_code amadeusOk oracle (resolve_code amadeusOk oracle cache input).cache input
          = ⟨code, (resolve_code amadeusOk oracle cache input).cache, 0⟩) ∧
      (oracle (cleanCode input) = Option.none →
        (resolve_code amadeusOk oracle cache input).result = cleanCode input ∧
        (resolve_code amadeusOk oracle cache input).cache = cache)) ∧
    (lookupStr CITY_MAP (cleanCode input) = Option.none →
      cache (cleanCode input) = Option.none → amadeusOk = false →
      resolve_code amadeusOk oracle cache input = ⟨cleanCode input, cache, 0⟩) := by
  refine ⟨?_, ?_, ?_, ?_⟩
  · intro c hc
    simp [resolve_code, h0, hc]
  · intro hmap c hc
    simp [resolve_code, h0, hmap, hc]
  · intro hmap hcache hok
    subst hok
    cases horacle : oracle (cleanCode input) with
    | some code =>
      refine ⟨by simp [resolve_code, h0, hmap, hcache, horacle], ?_, ?_⟩
      · intro code2 hcode2
        obtain rfl : code = code2 := by injection hcode2
        refine ⟨by simp [resolve_code, h0, hmap, hcache, horacle], ?_, ?_⟩
        · simp [resolve_code, h0, hmap, hcache, horacle]
        · simp [resolve_code, h0, hmap, hcache, horacle]
      · intro hnone
        exact absurd hnone (by simp)
    | none =>
      refine ⟨by simp [resolve_code, h0, hmap, hcache, horacle], ?_, ?_⟩
      · intro code2 hcode2
        exact absurd hcode2 (by simp)
      · intro _
        constructor <;> simp [resolve_code, h0, hmap, hcache, horacle]
  · intro hmap hcache hok
    subst hok
    simp [resolve_code, h0, hmap, hcache]

/-- Witness for C6: the static-table input " tokyo " resolves to TYO
without touching cache or oracle, and for unknown "zzzz" a successful
external lookup is cached so the second call performs zero calls. -/
theorem C6_resolve_code_resolution_order_witness :
    resolve_code true (fun _ => some "AAA") (fun _ => Option.none) " tokyo "
      = ⟨"TYO", (fun _ => Option.none), 0⟩ ∧
    (resolve_code true (fun _ => some "AAA") (fun _ => Option.none) "zzzz").externalCalls
      = 1 ∧
    resolve_code true (fun _ => some "AAA")
      (resolve_code true (fun _ => some "AAA") (fun _ => Option.none) "zzzz").cache "zzzz"
      = ⟨"AAA", (resolve_code true (fun _ => some "AAA") (fun _ => Option.none) "zzzz").cache,
          0⟩ :=
  ⟨(C6_resolve_code_resolution_order true (fun _ => some "AAA") (fun _ => Option.none)
      " tokyo " (by decide)).1 "TYO" (by decide),
   ((C6_resolve_code_resolution_order true (fun _ => some "AAA") (fun _ => Option.none)
      "zzzz" (by decide)).2.2.1 (by decide) rfl rfl).1,
   (((C6_resolve_code_resolution_order true (fun _ => some "AAA") (fun _ => Option.none)
      "zzzz" (by decide)).2.2.1 (by decide) rfl rfl).2.1 "AAA" rfl).2.2⟩

/-- The carrier-bonus guard fires exactly when the preferences carry a
non-empty preferred-carrier string equal to the offer's main carrier. -/
theorem carrierBonus_iff (offer : Offer) (prefs : List (String × PyVal)) :
    carrierBonus offer prefs = true ↔
      ∃ c : String, lookupStr prefs "carrier" = some (PyVal.str c) ∧ c ≠ "" ∧
        offer.carrier_main = c := by
  unfold carrierBonus
  cases h : lookupStr prefs "carrier" with
  | none => simp
  | some pc =>
    cases pc with
    | str t =>
      simp only [truthy, Bool.and_eq_true, bne_iff_ne, ne_eq, beq_iff_eq,
        Option.some.injEq, PyVal.str.injEq]
      constructor
      · rintro ⟨h1, h2⟩
        exact ⟨t, rfl, h1, h2⟩
      · rintro ⟨c, rfl, h2, h3⟩
        exact ⟨h2, h3⟩
    | none => simp
    | bool b => simp [truthy]
    | int i => simp [truthy]
    | float q => simp [truthy]
    | list l => simp [truthy]
    | dict d => simp [truthy]

/-- **C1 counterexample.** With preferences carrying the empty string as
preferred carrier and an offer whose main carrier is the empty string,
the preferred carrier exactly equals the main carrier, so the claim
demands score 1100 and a recorded carrier bonus; the code's truthiness
guard skips the bonus, giving score 1000 and no carrier entry in the
breakdown. -/
theorem C1_counterexample_empty_preferred_carrier :
    (calculate_score emptyCarrierOffer [("carrier", PyVal.str "")]).1 = 1000 ∧
    lookupStr (calculate_score emptyCarrierOffer [("carrier", PyVal.str "")]).2.score_breakdown
      "carrier" = Option.none := by
  constructor <;>
    simp [calculate_score, carrierBonus, emptyCarrierOffer, lookupStr, truthy]

/-- **C1 (amended).** calculate_score returns
1000 - price/1000 - duration/10 - 50*stops, plus a flat 100 exactly
when the preferences carry a non-empty preferred-carrier string equal
to the offer's main carrier; the price, duration and stops deductions
are always recorded in the score-breakdown under their factor names,
and the carrier bonus is recorded exactly when it fires; the offer's
mutable score field is set to the returned score. -/
theorem C1_calculate_score_formula (offer : Offer) (prefs : List (String × PyVal)) :
    ((∃ c : String, lookupStr prefs "carrier" = some (PyVal.str c) ∧ c ≠ "" ∧
        offer.carrier_main = c) →
      (calculate_score offer prefs).1
        = 1000 - offer.price / 1000 - (offer.total_duration_minutes : ℚ) / 10
            - (offer.stops : ℚ) * 50 + 100 ∧
      lookupStr (calculate_score offer prefs).2.score_breakdown "carrier" = some 100) ∧
    ((¬ ∃ c : String, lookupStr prefs "carrier" = some (PyVal.str c) ∧ c ≠ "" ∧
        offer.carrier_main = c) →
      (calculate_score offer prefs).1
        = 1000 - offer.price / 1000 - (offer.total_duration_minutes : ℚ) / 10
            - (offer.stops : ℚ) * 50 ∧
      lookupStr (calculate_score offer prefs).2.score_breakdown "carrier" = Option.none) ∧
    (calculate_score offer prefs).2.score = (calculate_score offer prefs).1 ∧
    lookupStr (calculate_score offer prefs).2.score_breakdown "price"
      = some (-(offer.price / 1000)) ∧
    lookupStr (calculate_score offer prefs).2.score_breakdown "duration"
      = some (-((offer.total_duration_minutes : ℚ) / 10)) ∧
    lookupStr (calculate_score offer prefs).2.score_breakdown "stops"
      = some (-((offer.stops : ℚ) * 50)) := by
  by_cases hb : carrierBonus offer prefs = true
  · have he := (carrierBonus_iff offer prefs).mp hb
    refine ⟨fun _ => ?_, fun hne => absurd he hne, ?_, ?_, ?_, ?_⟩ <;>
      simp [calculate_score, hb, lookupStr]
  · have hne := hb
    rw [carrierBonus_iff] at hne
    rw [Bool.not_eq_true] at hb
    refine ⟨fun he => absurd he hne, fun _ => ?_, ?_, ?_, ?_, ?_⟩ <;>
      simp [calculate_score, hb, lookupStr]

/-- Witness for C1 at a concrete offer (price 18000, 85 minutes, one
stop, carrier NH) and preferences preferring NH. -/
theorem C1_calculate_score_formula_witness :
    (calculate_score nhOffer [("carrier", PyVal.str "NH")]).1
      = 1000 - nhOffer.price / 1000 - (nhOffer.total_duration_minutes : ℚ) / 10
          - (nhOffer.stops : ℚ) * 50 + 100 ∧
    lookupStr (calculate_score nhOffer [("carrier", PyVal.str "NH")]).2.score_breakdown
      "carrier" = some 100 :=
  (C1_calculate_score_formula nhOffer [("carrier", PyVal.str "NH")]).1
    ⟨"NH", rfl, by decide, rfl⟩

/-- normalize_offers is exactly the filterMap of its per-payload step:
every payload that converts is returned in order, every payload that
raises or has an unknown source tag is skipped. -/
theorem normalize_offers_eq_filterMap (now : DateTime) (l : List Dict) :
    normalize_offers now l = l.filterMap (normalizeOne now) := by
  induction l with
  | nil => rfl
  | cons raw rest ih =>
    unfold normalize_offers
    cases hs : normalizeStep now raw with
    | ok r => cases r <;> simp [List.filterMap_cons, normalizeOne, hs, ih]
    | error e => simp [List.filterMap_cons, normalizeOne, hs, ih]

/-- **C2.** normalize_offers never raises (it is a total function of the
batch) and a malformed payload — one whose conversion raises — is
skipped while every sibling payload in the batch is still processed
and returned exactly as if the malformed one were absent. -/
theorem C2_normalize_offers_skips_malformed_keeps_siblings
    (now : DateTime) (pre post : List Dict) (raw : Dict)
    (h : normalizeOne now raw = Option.none) :
    normalize_offers now (pre ++ raw :: post)
      = normalize_offers now pre ++ normalize_offers now post := by
  simp [normalize_offers_eq_filterMap, List.filterMap_append, List.filterMap_cons, h]

/-- Witness for C2: an Amadeus payload missing its `price` field is
dropped while both valid siblings in the batch are still normalized. -/
theorem C2_normalize_offers_skips_malformed_keeps_siblings_witness :
    normalize_offers dt0 [valid1, missingPrice, valid2]
      = normalize_offers dt0 [valid1] ++ normalize_offers dt0 [valid2] ∧
    (normalize_offers dt0 [valid1, missingPrice, valid2]).map (fun o => o.id)
      = ["A1", "C7"] :=
  ⟨C2_normalize_offers_skips_malformed_keeps_siblings dt0 [valid1] [valid2]
      missingPrice (by decide),
   by decide⟩

/-- Every Offer normalize_amadeus_offer produces has
stops = number of segments - 1. -/
theorem normalize_amadeus_offer_stops {raw : Dict} {o : Offer}
    (h : normalize_amadeus_offer raw = .ok o) :
    o.stops = (o.segments.length : Int) - 1 := by
  unfold normalize_amadeus_offer at h
  rw [exceptMap_eq_ok] at h
  obtain ⟨p, _, ho⟩ := h
  subst ho
  rfl

/-- Every Offer normalize_serpapi_offer produces has
stops = number of segments - 1. -/
theorem normalize_serpapi_offer_stops {now : DateTime} {raw : Dict} {o : Offer}
    (h : normalize_serpapi_offer now raw = .ok o) :
    o.stops = (o.segments.length : Int) - 1 := by
  unfold normalize_serpapi_offer at h
  rw [exceptMap_eq_ok] at h
  obtain ⟨p, _, ho⟩ := h
  subst ho
  rfl

/-- An `Except` bind hits `ok` exactly when both stages do. -/
theorem exceptBind_eq_ok {ε α β : Type} {x : Except ε α} {f : α → Except ε β} {b : β} :
    (x >>= f) = .ok b ↔ ∃ a, x = .ok a ∧ f a = .ok b := by
  cases x <;> simp [Bind.bind, Except.bind]

/-- Every Offer the per-payload dispatch produces, from any source tag,
has stops = number of segments - 1. -/
theorem normalizeOne_stops {now : DateTime} {raw : Dict} {o : Offer}
    (h : normalizeOne now raw = some o) :
    o.stops = (o.segments.length : Int) - 1 := by
  unfold normalizeOne at h
  cases hs : normalizeStep now raw with
  | error e => rw [hs] at h; exact Option.noConfusion h
  | ok r =>
    rw [hs] at h
    simp only [] at h
    subst h
    unfold normalizeStep at hs
    split at hs
    · rw [exceptBind_eq_ok] at hs
      obtain ⟨a, hA, hpure⟩ := hs
      obtain rfl : a = o := by
        injection hpure with h1
        injection h1
      exact normalize_amadeus_offer_stops hA
    · rw [exceptBind_eq_ok] at hs
      obtain ⟨a, hA, hpure⟩ := hs
      obtain rfl : a = o := by
        injection hpure with h1
        injection h1
      exact normalize_serpapi_offer_stops hA
    · rw [exceptBind_eq_ok] at hs
      obtain ⟨a, hA, hpure⟩ := hs
      obtain rfl : a = o := by
        injection hpure with h1
        injection h1
      exact normalize_amadeus_offer_stops hA
    · exact Option.noConfusion (by injection hs : Option.none = some o)

/-- **C4 (amended).** Every Offer produced by the Normalizer, from any
source tag, has stops equal to its number of segments minus one — but
it need not contain a segment: the stops field can be -1 on a
zero-segment offer. -/
theorem C4_stops_eq_segment_count_minus_one (now : DateTime) (raws : List Dict)
    (o : Offer) (h : o ∈ normalize_offers now raws) :
    o.stops = (o.segments.length : Int) - 1 := by
  rw [normalize_offers_eq_filterMap] at h
  obtain ⟨raw, _, hne⟩ := List.mem_filterMap.mp h
  exact normalizeOne_stops hne

/-- **C4 counterexample.** A SerpApi payload with no flights normalizes
(without error) to an Offer with zero segments — refuting the claim
that every produced Offer contains at least one Segment — and its
stops field is -1, which is still segments - 1. -/
theorem C4_counterexample_zero_segment_offer :
    (normalize_offers dt0 [serpEmptyRaw]).map (fun o => (o.segments.length, o.stops))
      = [(0, -1)] := by
  decide

/-- Witness for C4: the Offer normalized from a concrete Amadeus payload
with one segment has stops 0 = 1 - 1. -/
theorem C4_stops_eq_segment_count_minus_one_witness :
    offer1.stops = (offer1.segments.length : Int) - 1 :=
  C4_stops_eq_segment_count_minus_one dt0 [valid1] offer1 (by decide)

/-- **C9 (code bug).** build_amadeus_format stamps both timestamps with
the same search date, so a scraped overnight row (departure 23:50,
arrival 01:10) flows through the pipeline into a Segment whose arrival
timestamp is strictly earlier than its departure timestamp, violating
the spec's invariant that arrival ≥ departure once both are known. -/
theorem C9_overnight_row_arrival_before_departure :
    (normalize_offers dt0
        ((build_amadeus_format overnightRow "2025-01-01").toOption.toList)).map
      (fun o => o.segments.map (fun s => (s.departure_time, s.arrival_time)))
      = [[((⟨2025, 1, 1, 23, 50, 0⟩ : DateTime), (⟨2025, 1, 1, 1, 10, 0⟩ : DateTime))]] ∧
    DateTime.key ⟨2025, 1, 1, 1, 10, 0⟩ < DateTime.key ⟨2025, 1, 1, 23, 50, 0⟩ := by
  constructor <;> decide

/-- All paths of one scrape run leave every file other than the
suggestion file untouched. -/
theorem scrape_ena_core_fs_frame (env : ScrapeEnv) (fs : Fs)
    (origin dest date p : String) (hp : p ≠ "scraper_config_suggestion.json") :
    (scrape_ena_core env fs origin dest date).fs p = fs p := by
  unfold scrape_ena_core
  split
  · split
    · split
      · rfl
      · cases hw : healWritten env origin dest date with
        | some sj => simp [hw, hp]
        | none => simp [hw]
    · rfl
  · rfl

/-- **C8.** A heal never modifies the active selector configuration:
after any scrape run the active configuration file (and every file
other than the suggestion file) is unchanged. Promoting a new
configuration through update_scraper_config writes exactly the
timestamped configuration to the active file and deletes the pending
suggestion file, so it cannot be reapplied. -/
theorem C8_heal_keeps_config_promotion_deletes_suggestion
    (env : ScrapeEnv) (fs : Fs) (origin dest date : String)
    (new_config : Dict) (now_iso : String) (p : String)
    (hp : p ≠ "scraper_config_suggestion.json") :
    (scrape_ena_core env fs origin dest date).fs "scraper_config.json"
      = fs "scraper_config.json" ∧
    (scrape_ena_core env fs origin dest date).fs p = fs p ∧
    update_scraper_config new_config now_iso fs "scraper_config.json"
      = some (.dict (dictSet new_config "last_updated" (.str now_iso))) ∧
    update_scraper_config new_config now_iso fs "scraper_config_suggestion.json"
      = Option.none := by
  refine ⟨scrape_ena_core_fs_frame env fs origin dest date _ (by decide),
    scrape_ena_core_fs_frame env fs origin dest date p hp, rfl, rfl⟩

/-- Witness for C8: a concrete healing run (AI success, healer success)
leaves the active configuration byte-identical while writing the
suggestion, and a concrete promotion writes the configuration and
removes the suggestion. -/
theorem C8_heal_keeps_config_promotion_deletes_suggestion_witness :
    (scrape_ena_core envAI fsWithCfg "HND" "OKA" "2025-01-01").fs "scraper_config.json"
      = fsWithCfg "scraper_config.json" ∧
    (scrape_ena_core envAI fsWithCfg "HND" "OKA" "2025-01-01").fs "other.json"
      = fsWithCfg "other.json" ∧
    update_scraper_config [("selectors", suggVal)] "2025-01-02T00:00:00" fsWithCfg
      "scraper_config.json"
      = some (.dict (dictSet [("selectors", suggVal)] "last_updated"
          (.str "2025-01-02T00:00:00"))) ∧
    update_scraper_config [("selectors", suggVal)] "2025-01-02T00:00:00" fsWithCfg
      "scraper_config_suggestion.json" = Option.none :=
  C8_heal_keeps_config_promotion_deletes_suggestion envAI fsWithCfg "HND" "OKA"
    "2025-01-01" [("selectors", suggVal)] "2025-01-02T00:00:00" "other.json" (by decide)

/-- **C7 (amended).** When the Deterministic Extractor finds zero rows,
the AI Fallback Extractor is invoked with the full rendered page HTML;
when the AI extraction succeeds the Selector Healer is invoked, and
whenever the healer returns a (truthy) suggestion it is written to the
suggestion file and the warning is set; when the fallback also fails
the run completes with an empty offer list and **no** warning (the
warning stays null, not a non-empty string). -/
theorem C7_zero_rows_triggers_ai_fallback (env : ScrapeEnv) (fs : Fs)
    (origin dest date : String) (containerSel : String)
    (hsel : dictGetD (loadSelectors fs) "container" PyVal.none = .str containerSel)
    (hzero : env.queryAll containerSel = []) :
    (scrape_ena_core env fs origin dest date).aiInvoked = true ∧
    (scrape_ena_core env fs origin dest date).aiHtml = some env.pageContent ∧
    (env.aiExtract env.pageContent origin dest date ≠ [] →
      (scrape_ena_core env fs origin dest date).healerInvoked = true ∧
      (∀ sj, env.aiSelectorFix env.pageContent
          (env.aiExtract env.pageContent origin dest date) = some sj →
        truthy sj = true →
        (scrape_ena_core env fs origin dest date).fs "scraper_config_suggestion.json"
          = some sj ∧
        (scrape_ena_core env fs origin dest date).warning
          = some "Selectors updated by AI! Check Settings.")) ∧
    (env.aiExtract env.pageContent origin dest date = [] →
      (scrape_ena_core env fs origin dest date).results = [] ∧
      (scrape_ena_core env fs origin dest date).warning = Option.none) := by
  cases hA : env.aiExtract env.pageContent origin dest date with
  | nil =>
    refine ⟨?_, ?_, fun hne => absurd rfl hne, fun _ => ⟨?_, ?_⟩⟩ <;>
      (unfold scrape_ena_core; rw [hsel]; simp [hzero, hA])
  | cons f rest =>
    refine ⟨?_, ?_, fun _ => ⟨?_, fun sj hsj htr => ⟨?_, ?_⟩⟩,
        fun hempty => absurd hempty (List.cons_ne_nil f rest)⟩ <;>
      (unfold scrape_ena_core; rw [hsel]; simp only [hzero, List.isEmpty_nil, if_true, hA,
        List.isEmpty_cons, Bool.false_eq_true, if_false]) <;>
      try rfl
    all_goals
      have hw : healWritten env origin dest date = some sj := by
        unfold healWritten
        rw [hA, hsj]
        simp [htr]
      simp [hw]

/-- **C7 counterexample.** When the selectors match nothing and the AI
fallback also fails, the run returns an empty offer list with a null
warning — not the non-empty warning string the claim requires. -/
theorem C7_counterexample_no_warning_on_double_failure :
    (scrape_ena_core envFail (fun _ => Option.none) "HND" "OKA" "2025-01-01").results
      = [] ∧
    (scrape_ena_core envFail (fun _ => Option.none) "HND" "OKA" "2025-01-01").warning
      = Option.none := by
  constructor <;> rfl

/-- Witness for C7: in a concrete run with zero rows, successful AI
extraction and a healing suggestion, the AI fallback is invoked with
the page HTML, the healer runs, the suggestion file is written and the
warning is set. -/
theorem C7_zero_rows_triggers_ai_fallback_witness :
    (scrape_ena_core envAI (fun _ => Option.none) "HND" "OKA" "2025-01-01").aiInvoked
      = true ∧
    (scrape_ena_core envAI (fun _ => Option.none) "HND" "OKA" "2025-01-01").aiHtml
      = some envAI.pageContent ∧
    (scrape_ena_core envAI (fun _ => Option.none) "HND" "OKA" "2025-01-01").healerInvoked
      = true ∧
    (scrape_ena_core envAI (fun _ => Option.none) "HND" "OKA"
        "2025-01-01").fs "scraper_config_suggestion.json" = some suggVal ∧
    (scrape_ena_core envAI (fun _ => Option.none) "HND" "OKA" "2025-01-01").warning
      = some "Selectors updated by AI! Check Settings." := by
  have h := C7_zero_rows_triggers_ai_fallback envAI (fun _ => Option.none)
    "HND" "OKA" "2025-01-01" "a#add_cart" rfl rfl
  have hne : envAI.aiExtract envAI.pageContent "HND" "OKA" "2025-01-01" ≠ [] := by
    simp [envAI]
  refine ⟨h.1, h.2.1, (h.2.2.1 hne).1, ?_, ?_⟩
  · exact ((h.2.2.1 hne).2 suggVal rfl (by decide)).1
  · exact ((h.2.2.1 hne).2 suggVal rfl (by decide)).2

/-- A digit run followed by a non-digit splits cleanly under
takeWhile/dropWhile on the digit predicate. -/
theorem span_digits_append (ds : List Char) (c : Char) (rest : List Char)
    (hds : ds.all (·.isDigit) = true) (hc : c.isDigit = false) :
    (ds ++ c :: rest).takeWhile (·.isDigit) = ds ∧
    (ds ++ c :: rest).dropWhile (·.isDigit) = c :: rest := by
  induction ds with
  | nil => simp [List.takeWhile_cons, List.dropWhile_cons, hc]
  | cons d ds2 ih =>
    rw [List.all_cons, Bool.and_eq_true] at hds
    have h2 := ih hds.2
    simp [List.takeWhile_cons, List.dropWhile_cons, hds.1, h2.1, h2.2]

/-- A nonempty digit run followed by the expected suffix letter makes
the regex group match and consume through the suffix. -/
theorem tryNumGroup_hit (suffix : Char) (ds rest : List Char)
    (hne : ds ≠ []) (hds : ds.all (·.isDigit) = true) (hs2 : suffix.isDigit = false) :
    tryNumGroup suffix (ds ++ suffix :: rest) = (some (digitsToNat ds), rest) := by
  have h := span_digits_append ds suffix rest hds hs2
  unfold tryNumGroup
  rw [h.1, h.2]
  cases ds with
  | nil => exact absurd rfl hne
  | cons d ds2 => simp

/-- Without a leading digit the regex group fails and the position is
unchanged. -/
theorem tryNumGroup_no_digits (suffix : Char) (cs : List Char)
    (h : cs.takeWhile (·.isDigit) = []) :
    tryNumGroup suffix cs = (Option.none, cs) := by
  unfold tryNumGroup
  rw [h]

/-- A digit run followed by the wrong letter makes the regex group fail
with the position unchanged. -/
theorem tryNumGroup_wrong_suffix (suffix c : Char) (ds rest : List Char)
    (hds : ds.all (·.isDigit) = true) (hc : c.isDigit = false) (hcs : c ≠ suffix) :
    tryNumGroup suffix (ds ++ c :: rest) = (Option.none, ds ++ c :: rest) := by
  have h := span_digits_append ds c rest hds hc
  unfold tryNumGroup
  rw [h.1, h.2]
  cases ds with
  | nil => rfl
  | cons d ds2 => simp [hcs]

/-- A string not starting with the literal PT parses to 0. -/
theorem parse_duration_not_PT (s : String) (h : ∀ t, s.toList ≠ 'P' :: 'T' :: t) :
    parse_duration s = 0 := by
  unfold parse_duration
  split
  next rest heq => exact absurd heq (h rest)
  next => rfl

/-- An all-non-digit character list has an empty digit-takeWhile. -/
theorem takeWhile_isDigit_nil (r : List Char)
    (hr : r.all (fun c => !c.isDigit) = true) :
    r.takeWhile (·.isDigit) = [] := by
  cases r with
  | nil => rfl
  | cons c r2 =>
    rw [List.all_cons, Bool.and_eq_true] at hr
    have hcd : c.isDigit = false := by
      cases hd : c.isDigit
      · rfl
      · rw [hd] at hr
        simp at hr
    simp [List.takeWhile_cons, hcd]

/-- **C10.** parse_duration is total on strings and never raises: on
`PT{h}H{m}M` (either component optional, components written as
nonempty digit runs) it returns h*60+m minutes; a string that does not
start with the literal PT, or whose tail after PT carries no digit (so
neither an hour nor a minute component), yields 0 — and an otherwise
valid Amadeus payload with a malformed duration token is normalized to
an Offer with total duration 0 rather than dropped. -/
theorem C10_parse_duration_total_spec (hs ms : List Char) (s : String)
    (hh : hs ≠ [] ∧ hs.all (·.isDigit) = true)
    (hm : ms ≠ [] ∧ ms.all (·.isDigit) = true) :
    parse_duration ("PT" ++ String.mk hs ++ "H" ++ String.mk ms ++ "M")
      = digitsToNat hs * 60 + digitsToNat ms ∧
    parse_duration ("PT" ++ String.mk hs ++ "H") = digitsToNat hs * 60 ∧
    parse_duration ("PT" ++ String.mk ms ++ "M") = digitsToNat ms ∧
    ((∀ t, s.toList ≠ 'P' :: 'T' :: t) → parse_duration s = 0) ∧
    (∀ r : List Char, r.all (fun c => !c.isDigit) = true →
      parse_duration ("PT" ++ String.mk r) = 0) ∧
    (normalize_offers dt0 [amadeusBadDur]).map (fun o => o.total_duration_minutes)
      = [0] := by
  refine ⟨?_, ?_, ?_, parse_duration_not_PT s, ?_, by decide⟩
  · have hlist : ("PT" ++ String.mk hs ++ "H" ++ String.mk ms ++ "M").toList
        = 'P' :: 'T' :: (hs ++ 'H' :: (ms ++ 'M' :: [])) := by
      show ((((['P', 'T'] ++ hs) ++ ['H']) ++ ms) ++ ['M'])
        = 'P' :: 'T' :: (hs ++ 'H' :: (ms ++ 'M' :: []))
      simp
    simp only [parse_duration, hlist,
      tryNumGroup_hit 'H' hs (ms ++ 'M' :: []) hh.1 hh.2 (by decide),
      tryNumGroup_hit 'M' ms [] hm.1 hm.2 (by decide), Option.getD_some]
  · have hlist : ("PT" ++ String.mk hs ++ "H").toList
        = 'P' :: 'T' :: (hs ++ 'H' :: []) := by
      show ((['P', 'T'] ++ hs) ++ ['H']) = 'P' :: 'T' :: (hs ++ 'H' :: [])
      simp
    simp only [parse_duration, hlist,
      tryNumGroup_hit 'H' hs [] hh.1 hh.2 (by decide), Option.getD_some]
    rfl
  · have hlist : ("PT" ++ String.mk ms ++ "M").toList
        = 'P' :: 'T' :: (ms ++ 'M' :: []) := by
      show ((['P', 'T'] ++ ms) ++ ['M']) = 'P' :: 'T' :: (ms ++ 'M' :: [])
      simp
    simp only [parse_duration, hlist,
      tryNumGroup_wrong_suffix 'H' 'M' ms [] hm.2 (by decide) (by decide),
      tryNumGroup_hit 'M' ms [] hm.1 hm.2 (by decide), Option.getD_some,
      Option.getD_none]
    simp
  · intro r hr
    have hlist : ("PT" ++ String.mk r).toList = 'P' :: 'T' :: r := rfl
    simp only [parse_duration, hlist,
      tryNumGroup_no_digits 'H' r (takeWhile_isDigit_nil r hr),
      tryNumGroup_no_digits 'M' r (takeWhile_isDigit_nil r hr), Option.getD_none]

/-- Witness for C10 at concrete duration tokens. -/
theorem C10_parse_duration_total_spec_witness :
    parse_duration "PT1H30M" = 90 ∧ parse_duration "PT2H" = 120 ∧
    parse_duration "PT45M" = 45 ∧ parse_duration "1H30M" = 0 :=
  have h1 := C10_parse_duration_total_spec ['1'] ['3', '0'] "1H30M"
    ⟨by decide, by decide⟩ ⟨by decide, by decide⟩
  have h2 := C10_parse_duration_total_spec ['2'] ['4', '5'] "1H30M"
    ⟨by decide, by decide⟩ ⟨by decide, by decide⟩
  ⟨h1.1, h2.2.1, h2.2.2.1, h1.2.2.2.1 (by
    intro t ht
    have hc : ('1' : Char) = 'P' := by injection ht
    exact absurd hc (by decide))⟩

/-- The ranking comparison is transitive. -/
theorem scoreLe_trans : ∀ a b c : Offer,
    scoreLe a b = true → scoreLe b c = true → scoreLe a c = true := by
  intro a b c hab hbc
  simp only [scoreLe, decide_eq_true_eq] at *
  exact le_trans hbc hab

/-- The ranking comparison is total. -/
theorem scoreLe_total : ∀ a b : Offer, (scoreLe a b || scoreLe b a) = true := by
  intro a b
  simp only [scoreLe, Bool.or_eq_true, decide_eq_true_eq]
  exact le_total b.score a.score

/-- rank_offers sorts the scored offers. -/
theorem rank_offers_eq_mergeSort (offers : List Offer) (prefs : List (String × PyVal)) :
    rank_offers offers prefs = (scoredOffers offers prefs).mergeSort scoreLe := rfl

/-- The output of rank_offers is sorted by score descending. -/
theorem rank_offers_sorted (offers : List Offer) (prefs : List (String × PyVal)) :
    List.Pairwise (fun a b : Offer => b.score ≤ a.score) (rank_offers offers prefs) := by
  have h := List.sorted_mergeSort scoreLe_trans scoreLe_total (scoredOffers offers prefs)
  rw [rank_offers_eq_mergeSort]
  exact h.imp (fun hab => by
    simpa only [scoreLe, decide_eq_true_eq] using hab)

/-- Offers with any fixed score appear in the output in scored-input
order (stability of the sort). -/
theorem rank_offers_filter_stable (offers : List Offer)
    (prefs : List (String × PyVal)) (c : ℚ) :
    (rank_offers offers prefs).filter (fun o => o.score == c)
      = (scoredOffers offers prefs).filter (fun o => o.score == c) := by
  have hpw : ((scoredOffers offers prefs).filter
      (fun o => o.score == c)).Pairwise (fun a b => scoreLe a b = true) := by
    apply List.pairwise_of_forall_mem_list
    intro a ha b hb
    have ha2 := List.of_mem_filter ha
    have hb2 := List.of_mem_filter hb
    simp only [beq_iff_eq] at ha2 hb2
    simp [scoreLe, ha2, hb2]
  have hsub : ((scoredOffers offers prefs).filter (fun o => o.score == c)).Sublist
      ((scoredOffers offers prefs).mergeSort scoreLe) :=
    List.sublist_mergeSort scoreLe_trans scoreLe_total hpw
      (List.filter_sublist (scoredOffers offers prefs))
  have hsubf := hsub.filter (fun o => o.score == c)
  have hff : List.filter (fun o => o.score == c)
      ((scoredOffers offers prefs).filter (fun o => o.score == c))
      = (scoredOffers offers prefs).filter (fun o => o.score == c) :=
    List.filter_eq_self.mpr (fun a ha =>
      @List.of_mem_filter Offer (fun o => o.score == c) a
        (scoredOffers offers prefs) ha)
  rw [hff] at hsubf
  have hlen : (((scoredOffers offers prefs).mergeSort scoreLe).filter
        (fun o => o.score == c)).length
      = ((scoredOffers offers prefs).filter (fun o => o.score == c)).length :=
    ((List.mergeSort_perm (scoredOffers offers prefs) scoreLe).filter
      (fun o => o.score == c)).length_eq
  rw [rank_offers_eq_mergeSort]
  exact (hsubf.eq_of_length hlen.symm).symm

/-- With pairwise-distinct scores, ranking is invariant under any
permutation of the input batch. -/
theorem rank_offers_perm_invariant (offers offers2 : List Offer)
    (prefs : List (String × PyVal)) (hperm : offers2.Perm offers)
    (hnd : ((scoredOffers offers prefs).map Offer.score).Nodup) :
    rank_offers offers2 prefs = rank_offers offers prefs := by
  haveI : IsAntisymm Offer (fun a b : Offer => b.score < a.score) :=
    ⟨fun a b h1 h2 => absurd (lt_trans h1 h2) (lt_irrefl _)⟩
  have hsp : (scoredOffers offers2 prefs).Perm (scoredOffers offers prefs) :=
    hperm.map _
  have hm : (rank_offers offers2 prefs).Perm (rank_offers offers prefs) := by
    rw [rank_offers_eq_mergeSort, rank_offers_eq_mergeSort]
    exact ((List.mergeSort_perm _ scoreLe).trans hsp).trans
      (List.mergeSort_perm _ scoreLe).symm
  have strict : ∀ l : List Offer, l.Perm (scoredOffers offers prefs) →
      List.Pairwise (fun a b : Offer => b.score ≤ a.score) l →
      List.Pairwise (fun a b : Offer => b.score < a.score) l := by
    intro l hl hle
    have hndl : (l.map Offer.score).Nodup := hnd.perm (hl.map Offer.score).symm
    have hne : l.Pairwise (fun a b : Offer => a.score ≠ b.score) :=
      List.pairwise_map.mp hndl
    exact (hle.and hne).imp (fun hab => lt_of_le_of_ne hab.1 hab.2.symm)
  have h1 : List.Pairwise (fun a b : Offer => b.score < a.score)
      (rank_offers offers prefs) :=
    strict _ (by rw [rank_offers_eq_mergeSort]; exact List.mergeSort_perm _ _)
      (rank_offers_sorted offers prefs)
  have h2 : List.Pairwise (fun a b : Offer => b.score < a.score)
      (rank_offers offers2 prefs) :=
    strict _ (by
        rw [rank_offers_eq_mergeSort]
        exact (List.mergeSort_perm _ _).trans hsp)
      (rank_offers_sorted offers2 prefs)
  exact List.eq_of_perm_of_sorted hm h2 h1

/-- **C3.** rank_offers returns the scored offers sorted by score
descending (a permutation of the scored batch); offers with equal
scores appear in their scored-input order (stable sort); and for
batches whose scores are pairwise distinct, every permutation of the
input batch ranks to the same output list. -/
theorem C3_rank_offers_sorted_stable (offers offers2 : List Offer)
    (prefs : List (String × PyVal)) :
    List.Pairwise (fun a b : Offer => b.score ≤ a.score) (rank_offers offers prefs) ∧
    (rank_offers offers prefs).Perm (scoredOffers offers prefs) ∧
    (∀ c : ℚ, (rank_offers offers prefs).filter (fun o => o.score == c)
      = (scoredOffers offers prefs).filter (fun o => o.score == c)) ∧
    (offers2.Perm offers →
      ((scoredOffers offers prefs).map Offer.score).Nodup →
      rank_offers offers2 prefs = rank_offers offers prefs) :=
  ⟨rank_offers_sorted offers prefs,
   by rw [rank_offers_eq_mergeSort]; exact List.mergeSort_perm _ _,
   rank_offers_filter_stable offers prefs,
   rank_offers_perm_invariant offers offers2 prefs⟩

/-- Witness for C3: two concrete offers with distinct scores rank to the
same list from either input order, and that output is the two offers
in descending score order. -/
theorem C3_rank_offers_sorted_stable_witness :
    rank_offers [jlOffer, nhOffer] [] = rank_offers [nhOffer, jlOffer] [] := by
  have hnd : ((scoredOffers [nhOffer, jlOffer] []).map Offer.score).Nodup := by
    have hmap : (scoredOffers [nhOffer, jlOffer] []).map Offer.score
        = [1847 / 2, 1981 / 2] := by
      norm_num [scoredOffers, calculate_score, carrierBonus, lookupStr,
        nhOffer, jlOffer]
    rw [hmap]
    norm_num
  exact (C3_rank_offers_sorted_stable [nhOffer, jlOffer] [jlOffer, nhOffer] []).2.2.2
    (List.Perm.swap nhOffer jlOffer []) hnd
